import Mathlib

/-!
# Verification of `rpi-electronics`: MCP23017 register cache and LCD20x4 drivers

A shallow embedding of the core of the `rpi-electronics` repository:

* `MCP23017` — the I/O-port-expander register cache with its diffing writer
  (`src/rpi_electronics/i2c/mcp23017.py`, class `MCP23017`).  Register words are
  modelled as `Nat` (Python integers here are always non-negative: they are seeded
  from 16-bit bus reads and only combined with `|`, `& ~`, `^`).  Bus traffic is
  modelled as a list of transactions.
* `LcdI2c` — the `LCD20x4` class of `src/rpi_electronics/i2c/mcp23017.py`
  (display driven through the expander).  We model the trace of `_write` calls
  (8-bit data value plus the character/command flag); the expander-level pin
  traffic sits below this abstraction.
* `LcdGpio` — the `LCD20x4` class of `src/rpi_electronics/gpio/lcd20x4.py`
  (display driven from direct GPIO lines), including its cached
  `_cursor_position`, modelled as `Option (Int × Int)` (`none` before the
  attribute is first assigned).

Python exceptions are modelled with `Except` / an `Option` error component;
an exception raised before a mutation leaves the state unchanged, which the
wrappers (`run_write`, `run_set_cursor`, `setup`) make explicit.
-/

/-- The Python exception kinds raised by the modelled code:
`MCP23017.RegisterValueError`, `NotImplementedError`, and `ValueError`. -/
inductive PyError
| registerValueError
| notImplementedError
| valueError
deriving DecidableEq

/-- One `_write` / `_cmd` call of an LCD driver: the 8-bit data value and
whether it was issued in character mode (`RS` high) or command mode. -/
structure LcdWrite where
  data : Nat
  charMode : Bool
deriving DecidableEq

namespace MCP23017

/-- The registers of the expander, the keys of `MCP23017.REG_BASE_ADDR`
(mcp23017.py lines 11–12).  Lower-case constructor names stand for the
upper-case Python keys. -/
inductive Reg
| iodir | ipol | gpinten | defval | intcon | iocon | gppu | intf | intcap | gpio | olat
deriving DecidableEq

/-- `MCP23017.REG_BASE_ADDR` (mcp23017.py lines 11–12). -/
def REG_BASE_ADDR : Reg → Nat
| .iodir => 0x00
| .ipol => 0x02
| .gpinten => 0x04
| .defval => 0x06
| .intcon => 0x08
| .iocon => 0x0A
| .gppu => 0x0C
| .intf => 0x0E
| .intcap => 0x10
| .gpio => 0x12
| .olat => 0x14

/-- The mutable state of an `MCP23017` instance: its bus address and the
per-register cache `self._register_values` (mcp23017.py lines 36–45). -/
structure McpState where
  address : Nat
  regs : Reg → Nat

/-- One bus transaction issued by the expander:
`bus.write_word_data(address, reg, word)` or
`bus.write_byte_data(address, reg, value)`. -/
inductive Txn
| writeWord (address : Nat) (reg : Nat) (word : Nat)
| writeByte (address : Nat) (reg : Nat) (value : Nat)
deriving DecidableEq

/-- The guard of `set_bit_in_word` (mcp23017.py line 64):
`0 <= bit <= 15 and value in (0, 1)`. -/
def validPair (bit value : Int) : Prop :=
  0 ≤ bit ∧ bit ≤ 15 ∧ (value = 0 ∨ value = 1)

instance (bit value : Int) : Decidable (validPair bit value) := by
  unfold validPair
  infer_instance

/-- `MCP23017.set_bit_in_word` (mcp23017.py lines 59–71).  For the clearing
branch, Python computes `word & ~(1 << bit)` on a non-negative int, which
equals `word ^^^ (word &&& (1 <<< bit))`; `and_not_eq_xor_and` below proves
this spelling equal to `Nat.ldiff word (1 <<< bit)`, i.e. bitwise AND-NOT. -/
def set_bit_in_word (word : Nat) (bit : Int) (value : Int) : Except PyError Nat :=
  if validPair bit value then
    .ok (if value ≠ 0 then word ||| (1 <<< bit.toNat)
         else word ^^^ (word &&& (1 <<< bit.toNat)))
  else .error .registerValueError

/-- The loop `for bit, value in zip(bits, values): word = set_bit_in_word(word, bit, value)`
(mcp23017.py lines 91–92), raising out of the loop at the first invalid pair. -/
def apply_bits (word : Nat) : List (Int × Int) → Except PyError Nat
| [] => .ok word
| p :: ps =>
  match set_bit_in_word word p.1 p.2 with
  | .error e => .error e
  | .ok w => apply_bits w ps

/-- The word-update phase of `MCP23017._write_register_word`
(mcp23017.py lines 78–92).  `bits`/`values` are each either a scalar or a
list, as in Python (`isinstance(bits, Iterable)`).  A scalar `bits` with a
list `values` reaches `set_bit_in_word` whose `value in (0, 1)` test fails,
so it raises `RegisterValueError`; a scalar `values` with list `bits` is
replicated (`values = [values] * number_of_bits`); two lists must have equal
lengths or `RegisterValueError` is raised. -/
def compute_word (word0 : Nat) (bits values : Sum Int (List Int)) : Except PyError Nat :=
  match bits with
  | .inl bit =>
    match values with
    | .inl v => set_bit_in_word word0 bit v
    | .inr _ => .error .registerValueError
  | .inr bs =>
    match values with
    | .inl v => apply_bits word0 (bs.zip (List.replicate bs.length v))
    | .inr vs =>
      if vs.length ≠ bs.length then .error .registerValueError
      else apply_bits word0 (bs.zip vs)

/-- The transaction-dispatch phase of `MCP23017._write_register_word`
(mcp23017.py lines 94–107):
`high_byte_diff, low_byte_diff = divmod(word ^ self._register_values[key], 256)`;
both non-zero → one word write; `high_byte_diff ^ low_byte_diff` non-zero →
one byte write, where `value_msb, value_lsb = divmod(word, 256)` and
`offset, value = (0, value_lsb) if low_byte_diff else (1, value_msb)`;
otherwise no transaction. -/
def diff_txns (st : McpState) (key : Reg) (word : Nat) : List Txn :=
  if (word ^^^ st.regs key) / 256 ≠ 0 ∧ (word ^^^ st.regs key) % 256 ≠ 0 then
    [Txn.writeWord st.address (REG_BASE_ADDR key) word]
  else if ((word ^^^ st.regs key) / 256) ^^^ ((word ^^^ st.regs key) % 256) ≠ 0 then
    if (word ^^^ st.regs key) % 256 ≠ 0 then
      [Txn.writeByte st.address (REG_BASE_ADDR key + 0) (word % 256)]
    else
      [Txn.writeByte st.address (REG_BASE_ADDR key + 1) (word / 256)]
  else
    []

/-- `MCP23017._write_register_word` (mcp23017.py lines 73–108): compute the
new word from the cached word, issue the minimal bus transactions, and set
`self._register_values[key] = word` unconditionally.  An exception raised
during the word computation propagates before any mutation. -/
def write_register_word (st : McpState) (key : Reg) (bits values : Sum Int (List Int)) :
    Except PyError (McpState × List Txn) :=
  match compute_word (st.regs key) bits values with
  | .error e => .error e
  | .ok word =>
    .ok ({ st with regs := Function.update st.regs key word }, diff_txns st key word)

/-- `_write_register_word` as the caller observes it: on an exception the
cache is untouched and no transaction was issued. -/
def run_write (st : McpState) (key : Reg) (bits values : Sum Int (List Int)) :
    McpState × List Txn × Option PyError :=
  match write_register_word st key bits values with
  | .ok (st1, t) => (st1, t, none)
  | .error e => (st, [], some e)

/-- `MCP23017.setup` (mcp23017.py lines 110–122): write the IODIR register,
then raise `NotImplementedError` if `pull_up_down` is not `None`, then if
`initial` is not `None`.  The `except` clause only rewords and re-raises
`RegisterValueError`. -/
def setup (st : McpState) (pins directions : Sum Int (List Int))
    (initial : Option Int := none) (pull_up_down : Option Int := none) :
    McpState × List Txn × Option PyError :=
  match write_register_word st Reg.iodir pins directions with
  | .error e => (st, [], some e)
  | .ok (st1, t) =>
    if pull_up_down ≠ none then (st1, t, some .notImplementedError)
    else if initial ≠ none then (st1, t, some .notImplementedError)
    else (st1, t, none)

/-- The invalid-argument conditions of the spec for `setBits`
(`_write_register_word`): a bit index outside `[0, 16)` or a level outside
`{0, 1}` among the applied (bit, level) pairs, a list of values whose length
differs from the list of bits, or a scalar bit paired with a list of values. -/
def BadArgs : Sum Int (List Int) → Sum Int (List Int) → Prop
| .inl b, .inl v => ¬ validPair b v
| .inl _, .inr _ => True
| .inr bs, .inl v => ∃ p ∈ bs.zip (List.replicate bs.length v), ¬ validPair p.1 p.2
| .inr bs, .inr vs => vs.length ≠ bs.length ∨ ∃ p ∈ bs.zip vs, ¬ validPair p.1 p.2

end MCP23017

namespace LcdI2c

/-- Class constants of `LCD20x4` in mcp23017.py (lines 158–181). -/
def LINE_OFFSETS : List Nat := [0x00, 0x40, 0x14, 0x54]

def LINE_WIDTH : Nat := 20

def LINE_NUMBER : Nat := 4

def CMD_CLEAR_DISPLAY : Nat := 0x01

def CMD_SET_ENTRY_MODE : Nat := 0x04

def ENTRY_LEFT : Nat := 0x02

def CMD_DISPLAY_CONTROL : Nat := 0x08

def DISPLAY_OFF : Nat := 0x00

def CMD_FUNCTION_SET : Nat := 0x20

def EIGHT_BIT_MODE : Nat := 0x10

def FOUR_BIT_MODE : Nat := 0x00

def TWO_LINES : Nat := 0x08

def CMD_SET_DDRAM_ADDRESS : Nat := 0x80

/-- The `function_set` value computed in `LCD20x4.__init__` (mcp23017.py
lines 204–206): `CMD_FUNCTION_SET | (FOUR_BIT_MODE if bit_mode == 4 else
EIGHT_BIT_MODE) | TWO_LINES`. -/
def function_set (bit_mode : Nat) : Nat :=
  CMD_FUNCTION_SET ||| (if bit_mode = 4 then FOUR_BIT_MODE else EIGHT_BIT_MODE) ||| TWO_LINES

/-- The `entry_mode` value of `LCD20x4.__init__` (mcp23017.py line 207). -/
def entry_mode : Nat := CMD_SET_ENTRY_MODE ||| ENTRY_LEFT

/-- `LCD20x4.write_char` (mcp23017.py lines 285–289): `_write(ord(char), True)`. -/
def write_char (c : Char) : LcdWrite := ⟨c.toNat, true⟩

/-- `LCD20x4.set_cursor_position` (mcp23017.py lines 261–268).  The guard is
`0 <= line < LINE_NUMBER and 0 <= column < LINE_WIDTH` with `LINE_NUMBER = 4`,
`LINE_WIDTH = 20`; on success it writes the single command
`CMD_SET_DDRAM_ADDRESS | (LINE_OFFSETS[line] + column)` (Python `|` binds
weaker than `+`), otherwise it raises `ValueError`. -/
def set_cursor_position (line column : Int) : Except PyError (List LcdWrite) :=
  if 0 ≤ line ∧ line < 4 ∧ 0 ≤ column ∧ column < 20 then
    .ok [⟨CMD_SET_DDRAM_ADDRESS ||| (LINE_OFFSETS.getD line.toNat 0 + column.toNat), false⟩]
  else .error .valueError

/-- `LCD20x4.clear_display` (mcp23017.py lines 248–253): write
`CMD_CLEAR_DISPLAY` then `set_cursor_position(0, 0)` (which is always in
range). -/
def clear_display : List LcdWrite :=
  ⟨CMD_CLEAR_DISPLAY, false⟩ ::
    (match set_cursor_position 0 0 with
     | .ok ws => ws
     | .error _ => [])

/-- `LCD20x4.write_line` (mcp23017.py lines 270–276): position the cursor
(propagating `ValueError`), then write `text[:(LINE_WIDTH - column)]` one
`write_char` at a time. -/
def write_line (line column : Int) (text : List Char) : Except PyError (List LcdWrite) :=
  match set_cursor_position line column with
  | .error e => .error e
  | .ok ws => .ok (ws ++ (text.take (LINE_WIDTH - column.toNat)).map write_char)

/-- `LCD20x4.clear_line` (mcp23017.py lines 278–283): for an in-range
position, `write_line(line, column, ' ' * (LINE_WIDTH - column))`; for an
out-of-range position the guard silently skips the body. -/
def clear_line (line : Int) (column : Int := 0) : Except PyError (List LcdWrite) :=
  if 0 ≤ line ∧ line < 4 ∧ 0 ≤ column ∧ column < 20 then
    write_line line column (List.replicate (LINE_WIDTH - column.toNat) ' ')
  else .ok []

/-- The `_write` calls issued by `LCD20x4.__init__` (mcp23017.py lines
183–219) after the pin setup: the width-dependent handshake (two primers for
4 data pins, a thrice-repeated function-set for 8), the shared function-set
and entry-mode commands, `display_off()`, and `clear_display()`.
`ValueError` is raised when the number of data pins is neither 4 nor 8. -/
def init_writes (bit_mode : Nat) : Except PyError (List LcdWrite) :=
  if bit_mode = 4 ∨ bit_mode = 8 then
    .ok ((if bit_mode = 4 then
            [⟨0x33, false⟩, ⟨0x32, false⟩]
          else
            List.replicate 3 ⟨function_set bit_mode, false⟩)
         ++ [⟨function_set bit_mode, false⟩, ⟨entry_mode, false⟩]
         ++ [⟨CMD_DISPLAY_CONTROL ||| DISPLAY_OFF, false⟩]
         ++ clear_display)
  else .error .valueError

/-- The initialization writes issued before the entry-mode command, i.e. the
width-dependent handshake plus the shared function-set command. -/
def writes_before_entry_mode (bit_mode : Nat) : List LcdWrite :=
  (match init_writes bit_mode with
   | .ok ws => ws
   | .error _ => []).takeWhile (fun w => w.data != entry_mode)

end LcdI2c

namespace LcdGpio

/-- Class constants of `LCD20x4` in gpio/lcd20x4.py (lines 8–14). -/
def LINE_OFFSETS : List Nat := [0x00, 0x40, 0x14, 0x54]

def LINE_WIDTH : Nat := 20

def LINE_NUMBER : Nat := 4

def CMD_CLEAR_DISPLAY : Nat := 0x01

def CMD_DISPLAY_OFF : Nat := 0x08

def CMD_DISPLAY_ON : Nat := 0x0C

def CMD_SET_CURSOR_POSITION : Nat := 0x80

/-- `self.function_set` of gpio/lcd20x4.py line 22:
`(1 << 5) | (self.data_length == 8 << 4) | (1 << 3)`.
Python operator precedence parses the middle term as
`data_length == (8 << 4)`, i.e. `data_length == 128`, a `bool` that the
surrounding `|` treats as `1` or `0`. -/
def function_set (data_length : Nat) : Nat :=
  (1 <<< 5) ||| (if data_length = 8 <<< 4 then 1 else 0) ||| (1 <<< 3)

/-- `LCD20x4.write_char` (gpio/lcd20x4.py lines 91–92). -/
def write_char (c : Char) : LcdWrite := ⟨c.toNat, true⟩

/-- `LCD20x4.set_cursor_position` (gpio/lcd20x4.py lines 72–77): inside the
bounds guard it assigns `self._cursor_position = [line, column]` and writes
the command `CMD_SET_CURSOR_POSITION + LINE_OFFSETS[line] + column`;
otherwise it raises `ValueError` before touching the cached position. -/
def set_cursor_position (cursor : Option (Int × Int)) (line column : Int) :
    Except PyError (Option (Int × Int) × List LcdWrite) :=
  if 0 ≤ line ∧ line < 4 ∧ 0 ≤ column ∧ column < 20 then
    .ok (some (line, column),
         [⟨CMD_SET_CURSOR_POSITION + LINE_OFFSETS.getD line.toNat 0 + column.toNat, false⟩])
  else .error .valueError

/-- `set_cursor_position` as the caller observes it: on `ValueError` the
cached cursor position is unchanged and nothing was written. -/
def run_set_cursor (cursor : Option (Int × Int)) (line column : Int) :
    Option (Int × Int) × List LcdWrite × Option PyError :=
  match set_cursor_position cursor line column with
  | .ok (c, ws) => (c, ws, none)
  | .error e => (cursor, [], some e)

/-- `LCD20x4.clear_display` (gpio/lcd20x4.py lines 62–64): write
`CMD_CLEAR_DISPLAY`, then `set_cursor_position(1, 1)` — which is always in
range, so the error branch below is unreachable. -/
def clear_display (cursor : Option (Int × Int)) :
    Option (Int × Int) × List LcdWrite :=
  match set_cursor_position cursor 1 1 with
  | .ok (c, ws) => (c, ⟨CMD_CLEAR_DISPLAY, false⟩ :: ws)
  | .error _ => (cursor, [⟨CMD_CLEAR_DISPLAY, false⟩])

/-- `LCD20x4.write_line` (gpio/lcd20x4.py lines 82–85). -/
def write_line (cursor : Option (Int × Int)) (line column : Int) (text : List Char) :
    Except PyError (Option (Int × Int) × List LcdWrite) :=
  match set_cursor_position cursor line column with
  | .error e => .error e
  | .ok (c, ws) => .ok (c, ws ++ (text.take (LINE_WIDTH - column.toNat)).map write_char)

/-- `LCD20x4.clear_line` (gpio/lcd20x4.py lines 87–89); note the default
`column=1` in this variant. -/
def clear_line (cursor : Option (Int × Int)) (line : Int) (column : Int := 1) :
    Except PyError (Option (Int × Int) × List LcdWrite) :=
  if 0 ≤ line ∧ line < 4 ∧ 0 ≤ column ∧ column < 20 then
    write_line cursor line column (List.replicate (LINE_WIDTH - column.toNat) ' ')
  else .ok (cursor, [])

/-- The `_cmd` calls issued by `LCD20x4.__init__` (gpio/lcd20x4.py lines
16–37): the width-dependent handshake, `display_off()`, `clear_display()`,
`display_on()`.  `ValueError` is raised when the number of data pins is
neither 4 nor 8.  The cursor attribute does not exist before
`clear_display` assigns it, hence the `none` argument. -/
def init_writes (data_length : Nat) : Except PyError (List LcdWrite) :=
  if data_length = 4 ∨ data_length = 8 then
    .ok ((if data_length = 4 then
            [⟨0x33, false⟩, ⟨0x32, false⟩, ⟨function_set data_length, false⟩]
          else
            List.replicate 3 ⟨function_set data_length, false⟩)
         ++ [⟨CMD_DISPLAY_OFF, false⟩]
         ++ (clear_display none).2
         ++ [⟨CMD_DISPLAY_ON, false⟩])
  else .error .valueError

/-- The initialization writes issued before the display-off command (this
variant has no entry-mode command): exactly the width-dependent handshake. -/
def writes_before_display_off (data_length : Nat) : List LcdWrite :=
  (match init_writes data_length with
   | .ok ws => ws
   | .error _ => []).takeWhile (fun w => w.data != CMD_DISPLAY_OFF)

end LcdGpio

/-- Example state for concrete evaluations: bus address 0x20, every register
cached as 0. -/
def mcpSt0 : MCP23017.McpState := { address := 0x20, regs := fun _ => 0 }

/-- The state reached from `mcpSt0` by `output(3, HIGH)` on the GPIO register. -/
def mcpSt0Gpio8 : MCP23017.McpState :=
  { mcpSt0 with regs := Function.update mcpSt0.regs .gpio 8 }

/-- The state reached from `mcpSt0Gpio8` by repeating `output(3, HIGH)`. -/
def mcpSt0Gpio8b : MCP23017.McpState :=
  { mcpSt0Gpio8 with regs := Function.update mcpSt0Gpio8.regs .gpio 8 }

/-- The state reached from `mcpSt0` by `setup(0, IN)`. -/
def mcpSt0Iodir1 : MCP23017.McpState :=
  { mcpSt0 with regs := Function.update mcpSt0.regs .iodir 1 }

/-- Example state with every register cached as 0x00F7 (the spec's GPIO
write-dispatch example). -/
def mcpStF7 : MCP23017.McpState := { address := 0x20, regs := fun _ => 0xF7 }

/-- `word ^^^ (word &&& mask)`, the spelling of Python's `word & ~mask` used in
`set_bit_in_word`, is exactly bitwise AND-NOT (`Nat.ldiff`). -/
theorem and_not_eq_xor_and (w m : Nat) : w ^^^ (w &&& m) = Nat.ldiff w m := by
  apply Nat.eq_of_testBit_eq
  intro i
  simp only [Nat.testBit_xor, Nat.testBit_land, Nat.testBit_ldiff]
  cases w.testBit i <;> cases m.testBit i <;> rfl

/-- Both bytes of the diff non-zero: one word-width write. -/
theorem MCP23017.diff_txns_of_both (st : McpState) (key : Reg) (w : Nat)
    (h1 : (w ^^^ st.regs key) / 256 ≠ 0) (h2 : (w ^^^ st.regs key) % 256 ≠ 0) :
    diff_txns st key w = [Txn.writeWord st.address (REG_BASE_ADDR key) w] := by
  unfold diff_txns
  rw [if_pos ⟨h1, h2⟩]

/-- Only the low byte of the diff non-zero: one byte write at offset 0. -/
theorem MCP23017.diff_txns_of_low (st : McpState) (key : Reg) (w : Nat)
    (h1 : (w ^^^ st.regs key) / 256 = 0) (h2 : (w ^^^ st.regs key) % 256 ≠ 0) :
    diff_txns st key w = [Txn.writeByte st.address (REG_BASE_ADDR key + 0) (w % 256)] := by
  unfold diff_txns
  rw [if_neg (fun hc => hc.1 h1)]
  rw [if_pos (show ((w ^^^ st.regs key) / 256) ^^^ ((w ^^^ st.regs key) % 256) ≠ 0 by
    rw [h1, Nat.zero_xor]; exact h2)]
  rw [if_pos h2]

/-- Only the high byte of the diff non-zero: one byte write at offset 1. -/
theorem MCP23017.diff_txns_of_high (st : McpState) (key : Reg) (w : Nat)
    (h1 : (w ^^^ st.regs key) / 256 ≠ 0) (h2 : (w ^^^ st.regs key) % 256 = 0) :
    diff_txns st key w = [Txn.writeByte st.address (REG_BASE_ADDR key + 1) (w / 256)] := by
  unfold diff_txns
  rw [if_neg (fun hc => hc.2 h2)]
  rw [if_pos (show ((w ^^^ st.regs key) / 256) ^^^ ((w ^^^ st.regs key) % 256) ≠ 0 by
    rw [h2, Nat.xor_zero]; exact h1)]
  rw [if_neg (fun hc => hc h2)]

/-- New word equal to the cached word: no transaction (write suppression). -/
theorem MCP23017.diff_txns_of_eq (st : McpState) (key : Reg) (w : Nat)
    (h : w = st.regs key) :
    diff_txns st key w = [] := by
  subst h
  simp [diff_txns, Nat.xor_self]

/-- The diffing writer is silent exactly when the new word equals the cache. -/
theorem MCP23017.diff_txns_eq_nil_iff (st : McpState) (key : Reg) (w : Nat) :
    diff_txns st key w = [] ↔ w = st.regs key := by
  constructor
  · intro h
    by_contra hne
    have hx : w ^^^ st.regs key ≠ 0 := fun h0 => hne (Nat.xor_eq_zero.mp h0)
    rcases Decidable.em ((w ^^^ st.regs key) / 256 ≠ 0 ∧ (w ^^^ st.regs key) % 256 ≠ 0)
      with hb | hb
    · rw [diff_txns_of_both st key w hb.1 hb.2] at h
      simp at h
    · have hd : (w ^^^ st.regs key) / 256 ≠ 0 ∨ (w ^^^ st.regs key) % 256 ≠ 0 := by omega
      rcases hd with h1 | h1
      · have h2 : (w ^^^ st.regs key) % 256 = 0 := by
          by_contra h2
          exact hb ⟨h1, h2⟩
        rw [diff_txns_of_high st key w h1 h2] at h
        simp at h
      · have h2 : (w ^^^ st.regs key) / 256 = 0 := by
          by_contra h2
          exact hb ⟨h2, h1⟩
        rw [diff_txns_of_low st key w h2 h1] at h
        simp at h
  · exact diff_txns_of_eq st key w

/-- Eliminator for a successful `_write_register_word` call: the new state is
the old one with only this register updated, the transactions are the diff
dispatch for the new word, and the new word is the recomputation from the
cached word. -/
theorem MCP23017.write_ok_elim (st st1 : McpState) (key : Reg)
    (bits values : Sum Int (List Int)) (t : List Txn)
    (h : write_register_word st key bits values = .ok (st1, t)) :
    st1 = { st with regs := Function.update st.regs key (st1.regs key) } ∧
    t = diff_txns st key (st1.regs key) ∧
    compute_word (st.regs key) bits values = .ok (st1.regs key) := by
  unfold write_register_word at h
  cases hc : compute_word (st.regs key) bits values with
  | error e =>
    rw [hc] at h
    simp at h
  | ok w =>
    rw [hc] at h
    simp only [Except.ok.injEq, Prod.mk.injEq] at h
    obtain ⟨h1, h2⟩ := h
    subst h1
    subst h2
    have hw : ({ st with regs := Function.update st.regs key w } : McpState).regs key = w := by
      simp [Function.update_same]
    refine ⟨?_, ?_, ?_⟩ <;> rw [hw]

/-- A zipped update list containing an invalid (bit, level) pair makes the
update loop raise `RegisterValueError`. -/
theorem MCP23017.apply_bits_error (w : Nat) (ps : List (Int × Int))
    (h : ∃ p ∈ ps, ¬ validPair p.1 p.2) :
    apply_bits w ps = .error .registerValueError := by
  induction ps generalizing w with
  | nil => simp at h
  | cons p ps ih =>
    rcases h with ⟨q, hq, hbad⟩
    rcases List.mem_cons.mp hq with rfl | hq'
    · have hs : set_bit_in_word w q.1 q.2 = .error .registerValueError := by
        unfold set_bit_in_word
        rw [if_neg hbad]
      simp [apply_bits, hs]
    · by_cases hp : validPair p.1 p.2
      · have hs : set_bit_in_word w p.1 p.2 =
            .ok (if p.2 ≠ 0 then w ||| (1 <<< p.1.toNat)
                 else w ^^^ (w &&& (1 <<< p.1.toNat))) := by
          unfold set_bit_in_word
          rw [if_pos hp]
        simp only [apply_bits, hs]
        exact ih _ ⟨q, hq', hbad⟩
      · have hs : set_bit_in_word w p.1 p.2 = .error .registerValueError := by
          unfold set_bit_in_word
          rw [if_neg hp]
        simp [apply_bits, hs]

/-- C1: for every register and every valid update batch,
`_write_register_word` computes the new word from the cached word, updates
the cache to it, and issues exactly one word-width write when both bytes of
(new XOR cached) are non-zero, exactly one one-byte write at the register's
base address plus offset 0 (low byte differs) or offset 1 (high byte
differs) when exactly one byte is non-zero, and no bus transaction when the
new word equals the cached word. -/
theorem c1_setbits_minimal_transactions (st : MCP23017.McpState) (key : MCP23017.Reg)
    (bits values : Sum Int (List Int)) (w : Nat)
    (h : MCP23017.compute_word (st.regs key) bits values = .ok w) :
    MCP23017.write_register_word st key bits values =
      .ok ({ st with regs := Function.update st.regs key w }, MCP23017.diff_txns st key w) ∧
    ((w ^^^ st.regs key) / 256 ≠ 0 ∧ (w ^^^ st.regs key) % 256 ≠ 0 →
      MCP23017.diff_txns st key w =
        [MCP23017.Txn.writeWord st.address (MCP23017.REG_BASE_ADDR key) w]) ∧
    ((w ^^^ st.regs key) / 256 = 0 ∧ (w ^^^ st.regs key) % 256 ≠ 0 →
      MCP23017.diff_txns st key w =
        [MCP23017.Txn.writeByte st.address (MCP23017.REG_BASE_ADDR key + 0) (w % 256)]) ∧
    ((w ^^^ st.regs key) / 256 ≠ 0 ∧ (w ^^^ st.regs key) % 256 = 0 →
      MCP23017.diff_txns st key w =
        [MCP23017.Txn.writeByte st.address (MCP23017.REG_BASE_ADDR key + 1) (w / 256)]) ∧
    (w = st.regs key → MCP23017.diff_txns st key w = []) := by
  refine ⟨?_, fun hc => MCP23017.diff_txns_of_both st key w hc.1 hc.2,
    fun hc => MCP23017.diff_txns_of_low st key w hc.1 hc.2,
    fun hc => MCP23017.diff_txns_of_high st key w hc.1 hc.2,
    fun hw => MCP23017.diff_txns_of_eq st key w hw⟩
  unfold MCP23017.write_register_word
  rw [h]

/-- C1 witness: `setBits(GPIO, bit=3, level=1)` with cached word 0x00F7
computes new word 0x00FF and issues exactly one single-byte write of 0xFF
at the low-byte offset of the GPIO register. -/
theorem c1_witness :
    MCP23017.compute_word (mcpStF7.regs .gpio) (.inl 3) (.inl 1) = .ok 0xFF ∧
    MCP23017.write_register_word mcpStF7 .gpio (.inl 3) (.inl 1) =
      .ok ({ mcpStF7 with regs := Function.update mcpStF7.regs .gpio 0xFF },
           MCP23017.diff_txns mcpStF7 .gpio 0xFF) ∧
    MCP23017.diff_txns mcpStF7 .gpio 0xFF =
      [MCP23017.Txn.writeByte 0x20 (0x12 + 0) 0xFF] :=
  ⟨rfl,
   (c1_setbits_minimal_transactions mcpStF7 .gpio (.inl 3) (.inl 1) 0xFF rfl).1,
   (c1_setbits_minimal_transactions mcpStF7 .gpio (.inl 3) (.inl 1) 0xFF rfl).2.2.1
     ⟨by decide, by decide⟩⟩

/-- C6: two successive `_write_register_word` calls on the same register that
produce the same resulting word issue a transaction on the first call exactly
when the word changed, and no transaction on the second call, because the
first call updates the cache to the new word unconditionally (the second
call even leaves the state unchanged). -/
theorem c6_write_suppression (st st1 st2 : MCP23017.McpState) (key : MCP23017.Reg)
    (bits1 values1 bits2 values2 : Sum Int (List Int))
    (t1 t2 : List MCP23017.Txn)
    (h1 : MCP23017.write_register_word st key bits1 values1 = .ok (st1, t1))
    (h2 : MCP23017.write_register_word st1 key bits2 values2 = .ok (st2, t2))
    (hsame : st2.regs key = st1.regs key) :
    t2 = [] ∧ st2 = st1 ∧ (t1 ≠ [] ↔ st1.regs key ≠ st.regs key) := by
  obtain ⟨e1, ht1, -⟩ := MCP23017.write_ok_elim st st1 key bits1 values1 t1 h1
  obtain ⟨e2, ht2, -⟩ := MCP23017.write_ok_elim st1 st2 key bits2 values2 t2 h2
  refine ⟨?_, ?_, ?_⟩
  · rw [ht2, hsame]
    exact MCP23017.diff_txns_of_eq st1 key (st1.regs key) rfl
  · rw [e2, hsame, Function.update_eq_self]
  · rw [ht1]
    exact not_congr (MCP23017.diff_txns_eq_nil_iff st key (st1.regs key))

/-- C6 witness: `output(GPIO bit 3, HIGH)` twice from a zero cache: the first
call issues one byte write, the second issues none and leaves the state
unchanged. -/
theorem c6_witness :
    MCP23017.write_register_word mcpSt0 .gpio (.inl 3) (.inl 1) =
      .ok (mcpSt0Gpio8, [MCP23017.Txn.writeByte 0x20 (0x12 + 0) 8]) ∧
    MCP23017.write_register_word mcpSt0Gpio8 .gpio (.inl 3) (.inl 1) =
      .ok (mcpSt0Gpio8b, []) ∧
    (([] : List MCP23017.Txn) = [] ∧ mcpSt0Gpio8b = mcpSt0Gpio8 ∧
      ([MCP23017.Txn.writeByte 0x20 (0x12 + 0) 8] ≠ [] ↔
        mcpSt0Gpio8.regs .gpio ≠ mcpSt0.regs .gpio)) :=
  ⟨rfl, rfl,
   c6_write_suppression mcpSt0 mcpSt0Gpio8 mcpSt0Gpio8b .gpio
     (.inl 3) (.inl 1) (.inl 3) (.inl 1)
     [MCP23017.Txn.writeByte 0x20 (0x12 + 0) 8] []
     rfl rfl rfl⟩

/-- C7: `_write_register_word` with a bit index outside [0, 16), a level
outside {0, 1} among the applied pairs, or mismatched batch lengths raises
`RegisterValueError`, and then the cached register word is unchanged and no
bus transaction is issued. -/
theorem c7_invalid_arguments_rejected (st : MCP23017.McpState) (key : MCP23017.Reg)
    (bits values : Sum Int (List Int)) (h : MCP23017.BadArgs bits values) :
    MCP23017.run_write st key bits values = (st, [], some .registerValueError) := by
  have hcw : MCP23017.compute_word (st.regs key) bits values =
      .error .registerValueError := by
    rcases bits with b | bs
    · rcases values with v | vs
      · simp only [MCP23017.BadArgs] at h
        simp only [MCP23017.compute_word, MCP23017.set_bit_in_word]
        rw [if_neg h]
      · rfl
    · rcases values with v | vs
      · simp only [MCP23017.BadArgs] at h
        simp only [MCP23017.compute_word]
        exact MCP23017.apply_bits_error _ _ h
      · simp only [MCP23017.BadArgs] at h
        simp only [MCP23017.compute_word]
        rcases h with hlen | hbad
        · rw [if_pos hlen]
        · by_cases hl : vs.length ≠ bs.length
          · rw [if_pos hl]
          · rw [if_neg hl]
            exact MCP23017.apply_bits_error _ _ hbad
  simp only [MCP23017.run_write, MCP23017.write_register_word, hcw]

/-- C7 witness: `setBits(GPIO, bit=16, level=1)` raises `RegisterValueError`
with the cache unchanged and no transaction. -/
theorem c7_witness :
    MCP23017.BadArgs (.inl 16) (.inl 1) ∧
    MCP23017.run_write mcpSt0 .gpio (.inl 16) (.inl 1) =
      (mcpSt0, [], some .registerValueError) :=
  ⟨(by decide : ¬ MCP23017.validPair 16 1),
   c7_invalid_arguments_rejected mcpSt0 .gpio (.inl 16) (.inl 1)
     (by decide : ¬ MCP23017.validPair 16 1)⟩

/-- C10: `setup` with a non-None `pull_up_down` or `initial` raises
`NotImplementedError` only after the IODIR update has been applied: the
returned state is exactly the post-write state, the returned transactions
are exactly those of the IODIR write (non-empty whenever the word changed),
and nothing is rolled back. -/
theorem c10_setup_error_after_iodir (st st1 : MCP23017.McpState)
    (pins directions : Sum Int (List Int)) (t : List MCP23017.Txn)
    (initial pull_up_down : Option Int)
    (h : MCP23017.write_register_word st .iodir pins directions = .ok (st1, t))
    (hreq : pull_up_down ≠ none ∨ initial ≠ none) :
    MCP23017.setup st pins directions initial pull_up_down =
      (st1, t, some .notImplementedError) ∧
    (st1.regs .iodir ≠ st.regs .iodir → t ≠ []) := by
  constructor
  · simp only [MCP23017.setup, h]
    by_cases hp : pull_up_down ≠ none
    · rw [if_pos hp]
    · rw [if_neg hp, if_pos (hreq.resolve_left hp)]
  · intro hch
    obtain ⟨-, ht, -⟩ := MCP23017.write_ok_elim st st1 .iodir pins directions t h
    rw [ht]
    exact (not_congr (MCP23017.diff_txns_eq_nil_iff st .iodir (st1.regs .iodir))).mpr hch

/-- C10 witness: `setup(pin 0, IN, pull_up_down=PUD_UP)` from a zero cache
issues the IODIR byte write and then reports `NotImplementedError` without
rolling the direction change back. -/
theorem c10_witness :
    MCP23017.write_register_word mcpSt0 .iodir (.inl 0) (.inl 1) =
      .ok (mcpSt0Iodir1, [MCP23017.Txn.writeByte 0x20 (0x00 + 0) 1]) ∧
    (MCP23017.setup mcpSt0 (.inl 0) (.inl 1) none (some 1) =
       (mcpSt0Iodir1, [MCP23017.Txn.writeByte 0x20 (0x00 + 0) 1],
        some .notImplementedError) ∧
     (mcpSt0Iodir1.regs .iodir ≠ mcpSt0.regs .iodir →
       [MCP23017.Txn.writeByte 0x20 (0x00 + 0) 1] ≠ [])) :=
  ⟨rfl,
   c10_setup_error_after_iodir mcpSt0 mcpSt0Iodir1 (.inl 0) (.inl 1)
     [MCP23017.Txn.writeByte 0x20 (0x00 + 0) 1] none (some 1)
     rfl (Or.inl (by decide))⟩

/-- Bitwise OR with 0x80 is plain addition below 0x80. -/
theorem lor_two_pow_seven_eq_add : ∀ x < 128, 128 ||| x = 128 + x := by decide

/-- For an in-range cursor position, the gpio variant's command
`0x80 + LINE_OFFSETS[line] + column` equals `0x80 ||| (LINE_OFFSETS[line] + column)`:
the display address never reaches bit 7. -/
theorem LcdGpio.cursor_cmd_eq (line column : Int)
    (h1 : 0 ≤ line) (h2 : line < 4) (h3 : 0 ≤ column) (h4 : column < 20) :
    CMD_SET_CURSOR_POSITION + LINE_OFFSETS.getD line.toNat 0 + column.toNat =
      CMD_SET_CURSOR_POSITION ||| (LINE_OFFSETS.getD line.toNat 0 + column.toNat) := by
  have hoff : LINE_OFFSETS.getD line.toNat 0 ≤ 0x54 := by
    interval_cases line <;> decide
  have hlt : LINE_OFFSETS.getD line.toNat 0 + column.toNat < 128 := by omega
  have hor := lor_two_pow_seven_eq_add (LINE_OFFSETS.getD line.toNat 0 + column.toNat) hlt
  simp only [CMD_SET_CURSOR_POSITION]
  rw [hor]
  omega

/-- C2: `set_cursor_position(line, column)` succeeds if and only if
0 ≤ line < 4 and 0 ≤ column < 20; on success the gpio variant caches the new
cursor position and both variants write the single command
`0x80 ||| (LINE_OFFSETS[line] + column)`; on failure both raise `ValueError`
and the gpio variant's cached cursor position is unchanged. -/
theorem c2_set_cursor_position_iff (cursor : Option (Int × Int)) (line column : Int) :
    (0 ≤ line ∧ line < 4 ∧ 0 ≤ column ∧ column < 20 →
      LcdGpio.run_set_cursor cursor line column =
        (some (line, column),
         [⟨0x80 ||| (LcdGpio.LINE_OFFSETS.getD line.toNat 0 + column.toNat), false⟩],
         none) ∧
      LcdI2c.set_cursor_position line column =
        .ok [⟨0x80 ||| (LcdI2c.LINE_OFFSETS.getD line.toNat 0 + column.toNat), false⟩]) ∧
    (¬ (0 ≤ line ∧ line < 4 ∧ 0 ≤ column ∧ column < 20) →
      LcdGpio.run_set_cursor cursor line column = (cursor, [], some .valueError) ∧
      LcdI2c.set_cursor_position line column = .error .valueError) := by
  constructor
  · rintro ⟨h1, h2, h3, h4⟩
    have hs : LcdGpio.set_cursor_position cursor line column =
        .ok (some (line, column),
             [⟨0x80 ||| (LcdGpio.LINE_OFFSETS.getD line.toNat 0 + column.toNat), false⟩]) := by
      unfold LcdGpio.set_cursor_position
      rw [if_pos ⟨h1, h2, h3, h4⟩, LcdGpio.cursor_cmd_eq line column h1 h2 h3 h4]
      rfl
    constructor
    · unfold LcdGpio.run_set_cursor
      rw [hs]
    · unfold LcdI2c.set_cursor_position
      rw [if_pos ⟨h1, h2, h3, h4⟩]
      rfl
  · intro h
    have hs : LcdGpio.set_cursor_position cursor line column = .error .valueError := by
      unfold LcdGpio.set_cursor_position
      rw [if_neg h]
    constructor
    · unfold LcdGpio.run_set_cursor
      rw [hs]
    · unfold LcdI2c.set_cursor_position
      rw [if_neg h]

/-- C2 witness: `set_cursor_position(1, 5)` succeeds (writing
`0x80 ||| (0x40 + 5)` and caching the position), `set_cursor_position(4, 0)`
fails with `ValueError` leaving the cached position unchanged. -/
theorem c2_witness :
    (0 ≤ (1 : Int) ∧ (1 : Int) < 4 ∧ 0 ≤ (5 : Int) ∧ (5 : Int) < 20) ∧
    (LcdGpio.run_set_cursor (some (3, 3)) 1 5 =
       (some (1, 5),
        [⟨0x80 ||| (LcdGpio.LINE_OFFSETS.getD (1 : Int).toNat 0 + (5 : Int).toNat), false⟩],
        none) ∧
     LcdI2c.set_cursor_position 1 5 =
       .ok [⟨0x80 ||| (LcdI2c.LINE_OFFSETS.getD (1 : Int).toNat 0 + (5 : Int).toNat), false⟩]) ∧
    (LcdGpio.run_set_cursor (some (3, 3)) 4 0 = (some (3, 3), [], some .valueError) ∧
     LcdI2c.set_cursor_position 4 0 = .error .valueError) :=
  ⟨by decide,
   (c2_set_cursor_position_iff (some (3, 3)) 1 5).1 (by decide),
   (c2_set_cursor_position_iff (some (3, 3)) 4 0).2 (by decide)⟩

/-- C3 (bug): `clear_display` of the gpio variant leaves the cached cursor
position at (1, 1) for every prior value — not (0, 0) as specified — because
it calls `set_cursor_position(1, 1)`; the i2c variant follows the clear
command with the set-cursor command for (0, 0), i.e. `0x80`. -/
theorem c3_clear_display_cursor :
    (∀ cursor, (LcdGpio.clear_display cursor).1 = some (1, 1)) ∧
    some ((1 : Int), (1 : Int)) ≠ some ((0 : Int), (0 : Int)) ∧
    LcdI2c.clear_display = [⟨0x01, false⟩, ⟨0x80, false⟩] :=
  ⟨fun _ => rfl, by decide, by decide⟩

/-- C4 (bug): with 8 data lines the gpio variant's transmitted function-set
byte is 0x28 — the 8-bit-width flag 0x10 is NOT set, because
`(1 << 5) | (self.data_length == 8 << 4) | (1 << 3)` parses as
`data_length == (8 << 4)`, which is false — whereas the i2c variant
correctly computes 0x38. -/
theorem c4_function_set_flag :
    LcdGpio.function_set 8 = 0x28 ∧
    LcdGpio.function_set 8 &&& 0x10 = 0 ∧
    LcdI2c.function_set 8 = 0x38 ∧
    LcdGpio.writes_before_display_off 8 = List.replicate 3 ⟨0x28, false⟩ := by decide

/-- C5 counterexample: the i2c variant's initialization with 8 data lines
issues 4 function-set commands before the entry-mode command (three in the
redundancy loop plus the shared one on line 215 of mcp23017.py), not 3. -/
theorem c5_counterexample_function_set_count :
    (LcdI2c.writes_before_entry_mode 8).count ⟨LcdI2c.function_set 8, false⟩ = 4 ∧
    (4 : Nat) ≠ 3 := by decide

/-- C5 (amended): with 4 data lines both variants issue exactly the two
primer commands 0x33, 0x32 followed by exactly one function-set command;
with 8 data lines, the gpio variant issues exactly 3 function-set commands
while the i2c variant issues exactly 4. -/
theorem c5_amended_handshake_counts :
    LcdI2c.writes_before_entry_mode 4 =
      [⟨0x33, false⟩, ⟨0x32, false⟩, ⟨LcdI2c.function_set 4, false⟩] ∧
    LcdGpio.writes_before_display_off 4 =
      [⟨0x33, false⟩, ⟨0x32, false⟩, ⟨LcdGpio.function_set 4, false⟩] ∧
    LcdGpio.writes_before_display_off 8 =
      List.replicate 3 ⟨LcdGpio.function_set 8, false⟩ ∧
    LcdI2c.writes_before_entry_mode 8 =
      List.replicate 4 ⟨LcdI2c.function_set 8, false⟩ := by decide

/-- C8: for every in-range position and every text, `write_line` writes the
cursor command and then exactly `min (length text) (20 - column)` characters
in character mode, one `write_char` per character, and never raises for
overlong text. -/
theorem c8_write_line_truncates (line column : Int) (text : List Char)
    (h : 0 ≤ line ∧ line < 4 ∧ 0 ≤ column ∧ column < 20) :
    LcdI2c.write_line line column text =
      .ok (⟨0x80 ||| (LcdI2c.LINE_OFFSETS.getD line.toNat 0 + column.toNat), false⟩ ::
           (text.take (LcdI2c.LINE_WIDTH - column.toNat)).map LcdI2c.write_char) ∧
    ((text.take (LcdI2c.LINE_WIDTH - column.toNat)).map LcdI2c.write_char).length =
      min text.length (LcdI2c.LINE_WIDTH - column.toNat) ∧
    ∀ wr ∈ (text.take (LcdI2c.LINE_WIDTH - column.toNat)).map LcdI2c.write_char,
      wr.charMode = true := by
  refine ⟨?_, ?_, ?_⟩
  · unfold LcdI2c.write_line LcdI2c.set_cursor_position
    rw [if_pos h]
    rfl
  · simp [List.length_map, List.length_take, Nat.min_comm]
  · intro wr hwr
    obtain ⟨c, -, rfl⟩ := List.mem_map.mp hwr
    rfl

/-- C8 witness: `write_line(1, 18, "HELLO")` succeeds and writes only the two
characters "HE" (0x48, 0x45) after the cursor command 0xD2. -/
theorem c8_witness :
    (0 ≤ (1 : Int) ∧ (1 : Int) < 4 ∧ 0 ≤ (18 : Int) ∧ (18 : Int) < 20) ∧
    (LcdI2c.write_line 1 18 "HELLO".toList =
      .ok (⟨0x80 ||| (LcdI2c.LINE_OFFSETS.getD (1 : Int).toNat 0 + (18 : Int).toNat), false⟩ ::
           ("HELLO".toList.take (LcdI2c.LINE_WIDTH - (18 : Int).toNat)).map LcdI2c.write_char)) ∧
    (("HELLO".toList.take (LcdI2c.LINE_WIDTH - (18 : Int).toNat)).map LcdI2c.write_char).length =
      min "HELLO".toList.length (LcdI2c.LINE_WIDTH - (18 : Int).toNat) ∧
    LcdI2c.write_line 1 18 "HELLO".toList =
      .ok [⟨0xD2, false⟩, ⟨0x48, true⟩, ⟨0x45, true⟩] :=
  ⟨by decide,
   (c8_write_line_truncates 1 18 "HELLO".toList (by decide)).1,
   (c8_write_line_truncates 1 18 "HELLO".toList (by decide)).2.1,
   rfl⟩

/-- C9 counterexample: `clear_line(4, 0)` silently performs no writes while
the claimed-equivalent `write_line(4, 0, twenty spaces)` raises
`ValueError` — the two do not have the same error behavior. -/
theorem c9_counterexample_error_behavior :
    LcdI2c.clear_line 4 0 = .ok [] ∧
    LcdI2c.write_line 4 0 (List.replicate (LcdI2c.LINE_WIDTH - (0 : Int).toNat) ' ') =
      .error .valueError :=
  ⟨rfl, rfl⟩

/-- C9 (amended): for an in-range position, `clear_line(line, column)` (with
`column` defaulting to 0 in this variant) produces exactly the writes of
`write_line(line, column, ' ' * (20 - column))`; for an out-of-range
position `clear_line` is a silent no-op whereas `write_line` raises
`ValueError`. -/
theorem c9_amended_clear_line (line column : Int) :
    (0 ≤ line ∧ line < 4 ∧ 0 ≤ column ∧ column < 20 →
      LcdI2c.clear_line line column =
        LcdI2c.write_line line column
          (List.replicate (LcdI2c.LINE_WIDTH - column.toNat) ' ')) ∧
    (¬ (0 ≤ line ∧ line < 4 ∧ 0 ≤ column ∧ column < 20) →
      LcdI2c.clear_line line column = .ok [] ∧
      LcdI2c.write_line line column
          (List.replicate (LcdI2c.LINE_WIDTH - column.toNat) ' ') =
        .error .valueError) := by
  constructor
  · intro h
    unfold LcdI2c.clear_line
    rw [if_pos h]
  · intro h
    constructor
    · unfold LcdI2c.clear_line
      rw [if_neg h]
    · unfold LcdI2c.write_line LcdI2c.set_cursor_position
      rw [if_neg h]

/-- C9 witness: `clear_line(1, 3)` equals `write_line(1, 3, 17 spaces)`, and
at the out-of-range line 4 `clear_line` is a no-op while `write_line`
raises. -/
theorem c9_witness :
    (0 ≤ (1 : Int) ∧ (1 : Int) < 4 ∧ 0 ≤ (3 : Int) ∧ (3 : Int) < 20) ∧
    LcdI2c.clear_line 1 3 =
      LcdI2c.write_line 1 3 (List.replicate (LcdI2c.LINE_WIDTH - (3 : Int).toNat) ' ') ∧
    (LcdI2c.clear_line 4 0 = .ok [] ∧
     LcdI2c.write_line 4 0 (List.replicate (LcdI2c.LINE_WIDTH - (0 : Int).toNat) ' ') =
       .error .valueError) :=
  ⟨by decide,
   (c9_amended_clear_line 1 3).1 (by decide),
   (c9_amended_clear_line 4 0).2 (by decide)⟩
